import Mathlib

/-!
Shallow embedding of the ResQ Connect local disaster store
(src/src/services/mock-data-service.ts) and of the hazard heuristic
(src/src/services/hazard-summary.ts).

Conventions of the embedding:
* JavaScript numbers are modelled by `JSNum`: either a rational value, a
  signed infinity, or `nan`.  The service code can produce `nan` through the
  unguarded division `severityWeight = (critical*0.5 + high*0.3)/totalReports`
  when the report list is empty, and `nan` makes every `>` comparison false,
  exactly as in JavaScript.  Where the source can only produce finite values
  we use plain rationals.
* Timestamps (`Date.now()`, `created_at`) are integers (milliseconds);
  the source stores ISO strings but always compares them as `Date` values,
  which compare by milliseconds.
* The haversine helper `calculateDistance` uses `Math.sin`, `Math.cos`,
  `Math.atan2`, which are not executable over the exact reals; the store
  operations therefore take the distance function as an explicit parameter
  `dist`, and the relation `haversineRel` (a `Prop`, over `ℝ`) records the
  exact formula of `calculateDistance` with Earth radius 6371 km, writing
  `Math.atan2 y x` as `Complex.arg (x + y*I)` (both have range (-pi, pi]
  and send (0,0) to 0).  The lemma `haversineRel_nonneg` extracts the only
  analytic fact the claims need: the haversine distance is nonnegative.
* `JSON.parse` inside `getPolygonCenter` is abstracted by a parameter
  `parse : String → Option (List (ℚ × ℚ))` returning the coordinate ring
  `coordinates[0]` as (lng, lat) pairs, or `none` when any exception is
  thrown (malformed JSON, missing `coordinates` field, non-array ring);
  the `catch` branch of the source turns that exception into the fixed
  default centre (lat 26.1445, lng 91.7362).
-/

namespace ResQ

/-- Severity levels of a report or zone (source: `severity` union type). -/
inductive Severity where
  | low | medium | high | critical
deriving DecidableEq, Repr

/-- Status of a disaster report (source: `status` union type). -/
inductive Status where
  | «open» | verified | resolved | false_alarm
deriving DecidableEq, Repr

/-- A disaster report (source: interface `DisasterReport`).  Optional fields
not used by any claim (`photo_url`, `updated_at`, `blockchain_hash`,
`profile`) are omitted. -/
structure DisasterReport where
  id : String
  reporter_id : String
  disaster_type : String
  description : String
  latitude : ℚ
  longitude : ℚ
  status : Status
  severity : Severity
  created_at : Int
  verified_at : Option Int := none
  verified_by : Option String := none
deriving DecidableEq, Repr

/-- A danger zone (source: interface `DangerZone`).  The `polygon` field is
the raw GeoJSON string exactly as stored. -/
structure DangerZone where
  id : String
  name : String
  polygon : String
  zone_type : String
  severity : Severity
  created_at : Int
  is_active : Bool
deriving DecidableEq, Repr

/-- The authenticated user of a session (source: `session.user`). -/
structure User where
  id : String
deriving DecidableEq, Repr

/-- The caller-supplied part of a report: `Omit<DisasterReport, "id" |
"created_at" | "reporter_id">`.  The object spread `...report` in
`reportDisaster` comes after the generated fields, so these are the fields
the caller controls — including `status`. -/
structure ReportInput where
  disaster_type : String
  description : String
  latitude : ℚ
  longitude : ℚ
  status : Status
  severity : Severity
  verified_at : Option Int := none
  verified_by : Option String := none
deriving DecidableEq, Repr

/-! ### JavaScript number semantics -/

/-- A JavaScript number: a finite (rational) value, a signed infinity or
`NaN`. -/
inductive JSNum where
  | num (q : ℚ) | inf | ninf | nan
deriving DecidableEq, Repr

/-- JavaScript division of two finite numbers: `0/0` is `NaN`, `x/0` for
nonzero `x` is a signed infinity. -/
def jsDivQ (a b : ℚ) : JSNum :=
  if b = 0 then (if a = 0 then .nan else if 0 < a then .inf else .ninf)
  else .num (a / b)

/-- Adding a finite number to a JavaScript number. -/
def jsAddQ (a : ℚ) : JSNum → JSNum
  | .num b => .num (a + b)
  | .inf => .inf
  | .ninf => .ninf
  | .nan => .nan

/-- Halving a JavaScript number (the `/ 2` in the risk formula). -/
def jsHalf : JSNum → JSNum
  | .num a => .num (a / 2)
  | .inf => .inf
  | .ninf => .ninf
  | .nan => .nan

/-- `Math.min(x, 1)`: `NaN` propagates, `Infinity` caps to 1. -/
def jsMin1 : JSNum → JSNum
  | .num a => .num (min a 1)
  | .inf => .num 1
  | .ninf => .ninf
  | .nan => .nan

/-- The JavaScript comparison `x > c` against a finite `c`: false on `NaN`. -/
def jsGt (x : JSNum) (c : ℚ) : Bool :=
  match x with
  | .num a => decide (c < a)
  | .inf => true
  | .ninf => false
  | .nan => false

/-! ### Hazard heuristic (src/src/services/hazard-summary.ts) -/

/-- The fields of the `analysis` record of `analyzeDisasterReports` that the
claims refer to (the type/area tallies are not needed by any claim). -/
structure Analysis where
  totalReports : Nat
  criticalReports : Nat
  highReports : Nat
  recentReports : Nat
  overallRisk : JSNum
deriving DecidableEq, Repr

/-- `analyzeDisasterReports` (hazard-summary.ts): counts reports, counts the
critical/high severities, counts reports created strictly within the last
24 hours of `now`, and computes
`overallRisk = Math.min((recentWeight + severityWeight)/2, 1)` with
`recentWeight = Math.min(recentReports/10, 1)` and
`severityWeight = (critical*0.5 + high*0.3)/totalReports` (unguarded
JavaScript division). -/
def analyzeDisasterReports (now : Int) (reports : List DisasterReport) :
    Analysis :=
  let total := reports.length
  let crit := (reports.filter (fun r => r.severity = Severity.critical)).length
  let high := (reports.filter (fun r => r.severity = Severity.high)).length
  let recent :=
    (reports.filter (fun r => now - 24 * 60 * 60 * 1000 < r.created_at)).length
  let recentWeight : ℚ := min ((recent : ℚ) / 10) 1
  let severityWeight :=
    jsDivQ ((crit : ℚ) * (1/2) + (high : ℚ) * (3/10)) (total : ℚ)
  { totalReports := total
    criticalReports := crit
    highReports := high
    recentReports := recent
    overallRisk := jsMin1 (jsHalf (jsAddQ recentWeight severityWeight)) }

/-- The risk-level bucketing of `generateMockHazardSummary`:
`risk > 0.7 ? critical : risk > 0.5 ? high : risk > 0.3 ? medium : low`. -/
def riskLevelOf (risk : JSNum) : Severity :=
  if jsGt risk (7/10) then .critical
  else if jsGt risk (1/2) then .high
  else if jsGt risk (3/10) then .medium
  else .low

/-- `generateHazardSummary` composed with `analyzeDisasterReports`
(`summarize` in the spec): the risk level and overall risk it reports. -/
def generateHazardSummary (now : Int) (reports : List DisasterReport) :
    Severity × JSNum :=
  let analysis := analyzeDisasterReports now reports
  (riskLevelOf analysis.overallRisk, analysis.overallRisk)

/-! ### Geospatial helpers (mock-data-service.ts) -/

/-- The exact formula of `calculateDistance` (haversine, Earth radius
6371 km), as a relation over the reals between the four coordinates (in
degrees) and the resulting distance.  `Math.atan2 y x` is written as
`Complex.arg ⟨x, y⟩`. -/
def haversineRel (lat1 lon1 lat2 lon2 d : ℝ) : Prop :=
  let dLat := (lat2 - lat1) * Real.pi / 180
  let dLon := (lon2 - lon1) * Real.pi / 180
  let a := Real.sin (dLat / 2) * Real.sin (dLat / 2) +
      Real.cos (lat1 * Real.pi / 180) * Real.cos (lat2 * Real.pi / 180) *
        (Real.sin (dLon / 2) * Real.sin (dLon / 2))
  let c := 2 * Complex.arg ⟨Real.sqrt (1 - a), Real.sqrt a⟩
  d = 6371 * c

/-- A distance function (on rational coordinates) that the store operations
may be run with; `HaversineLike dist` says each of its values is either the
exact haversine value of `haversineRel` or at least nonnegative.  The actual
`calculateDistance` satisfies the left disjunct everywhere. -/
def HaversineLike (dist : ℚ → ℚ → ℚ → ℚ → ℚ) : Prop :=
  ∀ (lat1 lon1 lat2 lon2 : ℚ),
    haversineRel (lat1 : ℝ) (lon1 : ℝ) (lat2 : ℝ) (lon2 : ℝ)
        ((dist lat1 lon1 lat2 lon2 : ℚ) : ℝ) ∨
      0 ≤ dist lat1 lon1 lat2 lon2

/-- `getPolygonCenter` (mock-data-service.ts), with `JSON.parse` and the
`coordinates[0]` access abstracted by `parse` (see the header comment).
When `parse` throws (`none`), the `catch` branch returns the fixed default
centre lat 26.1445, lng 91.7362 (Guwahati).  When the ring is present but
empty, `reduce(..., 0)/0` is the JavaScript division `0/0 = NaN`, so the
centre is not a number: modelled as `none` (such a centre compares false
against the 5 km radius, as NaN does).  Otherwise the centre is the
vertex mean, returned as a (lat, lng) pair. -/
def getPolygonCenter (parse : String → Option (List (ℚ × ℚ)))
    (polygon : String) : Option (ℚ × ℚ) :=
  match parse polygon with
  | none => some (26.1445, 91.7362)
  | some [] => none
  | some coords =>
      some (((coords.map Prod.snd).sum) / coords.length,
            ((coords.map Prod.fst).sum) / coords.length)

/-! ### Disaster store operations (mock-data-service.ts) -/

/-- `disasterService.getDisasterReports(limit, offset)`: reads the stored
list and returns `disasters.slice(offset, offset + limit)`; for nonnegative
arguments that is drop-then-take. -/
def getDisasterReports (disasters : List DisasterReport)
    (limit offset : Nat) : List DisasterReport :=
  (disasters.drop offset).take limit

/-- `disasterService.getDisasterReportsByLocation(lat, lng, radiusKm,
limit)`: keeps the reports whose distance from the query point is
`<= radiusKm`, in stored order, then `slice(0, limit)`. -/
def getDisasterReportsByLocation (dist : ℚ → ℚ → ℚ → ℚ → ℚ)
    (disasters : List DisasterReport) (lat lng radiusKm : ℚ) (limit : Nat) :
    List DisasterReport :=
  (disasters.filter
      (fun r => dist lat lng r.latitude r.longitude ≤ radiusKm)).take limit

/-- `disasterService.reportDisaster(report)`: throws
`Error("Authentication required")` when `getCurrentUser()` is null;
otherwise builds the new report from the generated `id`
(`"disaster-" + Date.now()`), `reporter_id` and `created_at` plus the
caller-supplied fields, prepends it (`unshift`) to the stored list,
persists the whole list and returns the new report. -/
def reportDisaster (session : Option User) (disasters : List DisasterReport)
    (now : Int) (input : ReportInput) :
    Except String (DisasterReport × List DisasterReport) :=
  match session with
  | none => .error "Authentication required"
  | some user =>
      let newReport : DisasterReport :=
        { id := "disaster-" ++ toString now
          reporter_id := user.id
          created_at := now
          disaster_type := input.disaster_type
          description := input.description
          latitude := input.latitude
          longitude := input.longitude
          status := input.status
          severity := input.severity
          verified_at := input.verified_at
          verified_by := input.verified_by }
      .ok (newReport, newReport :: disasters)

/-- Replace the first element satisfying `p` by `f` of it (the effect of
mutating the object found by `Array.prototype.find` inside the stored
list). -/
def updateFirst (p : DisasterReport → Bool) (f : DisasterReport → DisasterReport) :
    List DisasterReport → List DisasterReport
  | [] => []
  | x :: xs => if p x then f x :: xs else x :: updateFirst p f xs

/-- `disasterService.verifyDisasterReport(reportId, verified)`: finds the
first report with the given id; if found, sets its status to `verified` or
`false_alarm`, stamps `verified_at`/`verified_by = "admin"` and persists the
list; if not found, persists nothing and returns undefined (`none`).
Returns the (possibly updated) report and the resulting stored list. -/
def verifyDisasterReport (disasters : List DisasterReport)
    (reportId : String) (verified : Bool) (now : Int) :
    Option DisasterReport × List DisasterReport :=
  match disasters.find? (fun r => r.id = reportId) with
  | none => (none, disasters)
  | some r =>
      let r' : DisasterReport :=
        { r with
          status := if verified then .verified else .false_alarm
          verified_at := some now
          verified_by := some "admin" }
      (some r', updateFirst (fun s => s.id = reportId) (fun _ => r') disasters)

/-- `dangerZoneService.getDangerZones()`: returns the stored zone list as
read from storage, with no filtering of any kind. -/
def getDangerZones (zones : List DangerZone) : List DangerZone :=
  zones

/-- The per-zone test inside `checkLocationInDangerZone`: the distance from
the query point to the zone centre is strictly below 5 km.  A `none` centre
(NaN) compares false. -/
def zoneMatches (dist : ℚ → ℚ → ℚ → ℚ → ℚ)
    (parse : String → Option (List (ℚ × ℚ))) (lat lng : ℚ)
    (zone : DangerZone) : Bool :=
  match getPolygonCenter parse zone.polygon with
  | none => false
  | some c => decide (dist lat lng c.1 c.2 < 5)

/-- `dangerZoneService.checkLocationInDangerZone(lat, lng)`: computes
`zones.some(distance-to-centre < 5)` over the whole stored list and returns
`zones.slice(0, 1)` when that is true, `[]` otherwise. -/
def checkLocationInDangerZone (dist : ℚ → ℚ → ℚ → ℚ → ℚ)
    (parse : String → Option (List (ℚ × ℚ))) (zones : List DangerZone)
    (lat lng : ℚ) : List DangerZone :=
  if zones.any (zoneMatches dist parse lat lng) then zones.take 1 else []

/-! ### Shared lemmas -/

/-- The haversine distance is nonnegative: the `Complex.arg` encoding of
`Math.atan2` is applied to a number with nonnegative imaginary part
`Real.sqrt a`. -/
theorem haversineRel_nonneg {lat1 lon1 lat2 lon2 d : ℝ}
    (h : haversineRel lat1 lon1 lat2 lon2 d) : 0 ≤ d := by
  unfold haversineRel at h
  subst h
  refine mul_nonneg (by norm_num) (mul_nonneg (by norm_num)
    (Complex.arg_nonneg_iff.mpr ?_))
  exact Real.sqrt_nonneg _

/-- The decimal digit characters of a natural number, most significant
first: the list that `Nat.toDigits 10` produces. -/
def decChars (n : Nat) : List Char :=
  if _h : n < 10 then [Nat.digitChar n]
  else decChars (n / 10) ++ [Nat.digitChar (n % 10)]
decreasing_by exact Nat.div_lt_self (by omega) (by omega)

theorem decChars_of_lt {n : Nat} (h : n < 10) :
    decChars n = [Nat.digitChar n] := by
  rw [decChars]
  exact dif_pos h

theorem decChars_of_ge {n : Nat} (h : 10 ≤ n) :
    decChars n = decChars (n / 10) ++ [Nat.digitChar (n % 10)] := by
  rw [decChars]
  exact dif_neg (by omega)

theorem decChars_ne_nil (n : Nat) : decChars n ≠ [] := by
  rcases Nat.lt_or_ge n 10 with h | h
  · rw [decChars_of_lt h]
    simp
  · rw [decChars_of_ge h]
    simp

theorem toDigitsCore_eq_decChars :
    ∀ (fuel n : Nat) (ds : List Char), n < fuel →
      Nat.toDigitsCore 10 fuel n ds = decChars n ++ ds := by
  intro fuel
  induction fuel with
  | zero => omega
  | succ f ih =>
    intro n ds h
    show (if n / 10 = 0 then Nat.digitChar (n % 10) :: ds
        else Nat.toDigitsCore 10 f (n / 10) (Nat.digitChar (n % 10) :: ds)) =
      decChars n ++ ds
    rcases Nat.lt_or_ge n 10 with hn | hn
    · rw [if_pos (Nat.div_eq_of_lt hn), decChars_of_lt hn,
        Nat.mod_eq_of_lt hn]
      simp
    · have hpos : 0 < n / 10 := (Nat.one_le_div_iff (by omega)).mpr hn
      have hdiv : n / 10 < f := by
        have := Nat.div_lt_self (by omega : 0 < n) (by omega : 1 < 10)
        omega
      rw [if_neg (by omega), ih (n / 10) _ hdiv, decChars_of_ge hn]
      simp

theorem Nat_repr_eq_decChars (n : Nat) :
    Nat.repr n = (decChars n).asString := by
  show (Nat.toDigitsCore 10 (n + 1) n []).asString = (decChars n).asString
  rw [toDigitsCore_eq_decChars (n + 1) n [] (by omega)]
  simp

theorem digitChar_inj_lt10 :
    ∀ a b : Nat, a < 10 → b < 10 → Nat.digitChar a = Nat.digitChar b →
      a = b := by
  intro a b ha hb
  interval_cases a <;> interval_cases b <;> decide

theorem decChars_inj (m : Nat) : ∀ n, decChars m = decChars n → m = n := by
  induction m using Nat.strong_induction_on with
  | _ m ih =>
    intro n h
    by_cases hm : m < 10 <;> by_cases hn : n < 10
    · rw [decChars_of_lt hm, decChars_of_lt hn] at h
      exact digitChar_inj_lt10 m n hm hn (by simpa using h)
    · exfalso
      rw [decChars_of_lt hm, decChars_of_ge (show (10:ℕ) ≤ n by omega)] at h
      have hlen := congrArg List.length h
      simp at hlen
      exact decChars_ne_nil (n / 10) hlen
    · exfalso
      rw [decChars_of_ge (show (10:ℕ) ≤ m by omega), decChars_of_lt hn] at h
      have hlen := congrArg List.length h
      simp at hlen
      exact decChars_ne_nil (m / 10) hlen
    · rw [decChars_of_ge (show (10:ℕ) ≤ m by omega),
        decChars_of_ge (show (10:ℕ) ≤ n by omega)] at h
      have h' : (decChars (m / 10)).concat (Nat.digitChar (m % 10)) =
          (decChars (n / 10)).concat (Nat.digitChar (n % 10)) := by
        rw [List.concat_eq_append, List.concat_eq_append]
        exact h
      obtain ⟨hq, hr⟩ := List.concat_inj.mp h'
      have hq' : m / 10 = n / 10 :=
        ih (m / 10) (Nat.div_lt_self (by omega) (by omega)) (n / 10) hq
      have hr' : m % 10 = n % 10 :=
        digitChar_inj_lt10 _ _ (Nat.mod_lt _ (by omega))
          (Nat.mod_lt _ (by omega)) hr
      omega

theorem Nat_repr_inj {m n : Nat} (h : Nat.repr m = Nat.repr n) : m = n := by
  rw [Nat_repr_eq_decChars, Nat_repr_eq_decChars] at h
  exact decChars_inj m n (List.asString_inj.mp h)

theorem toString_intOfNat (n : Nat) : toString (n : Int) = Nat.repr n := rfl

theorem toString_int_inj {a b : Int} (ha : 0 ≤ a) (hb : 0 ≤ b)
    (h : toString a = toString b) : a = b := by
  obtain ⟨m, rfl⟩ := Int.eq_ofNat_of_zero_le ha
  obtain ⟨n, rfl⟩ := Int.eq_ofNat_of_zero_le hb
  rw [toString_intOfNat, toString_intOfNat] at h
  exact congrArg Int.ofNat (Nat_repr_inj h)

theorem string_append_left_cancel {a b c : String} (h : a ++ b = a ++ c) :
    b = c := by
  have hd : (a ++ b).data = (a ++ c).data := congrArg String.data h
  rw [String.data_append, String.data_append] at hd
  have hbc := List.append_cancel_left hd
  cases b
  cases c
  exact congrArg String.mk hbc

/-- Any `HaversineLike` distance function is pointwise nonnegative. -/
theorem haversineLike_nonneg {dist : ℚ → ℚ → ℚ → ℚ → ℚ}
    (h : HaversineLike dist) (lat1 lon1 lat2 lon2 : ℚ) :
    0 ≤ dist lat1 lon1 lat2 lon2 := by
  rcases h lat1 lon1 lat2 lon2 with hh | hge
  · exact_mod_cast haversineRel_nonneg hh
  · exact hge

/-! ### Sample data for witnesses and counterexamples -/

/-- A sample report (oldest of the three in the C8 scenario). -/
def repA : DisasterReport :=
  { id := "A", reporter_id := "u1", disaster_type := "flood",
    description := "a", latitude := 0, longitude := 0,
    status := .«open», severity := .low, created_at := 1 }

/-- A sample report (middle of the three in the C8 scenario). -/
def repB : DisasterReport :=
  { repA with id := "B", description := "b", created_at := 2 }

/-- A sample report (newest of the three in the C8 scenario). -/
def repC : DisasterReport :=
  { repA with id := "C", description := "c", created_at := 3 }

/-- A report with critical severity created at time 0. -/
def repCrit : DisasterReport :=
  { repA with id := "r1", severity := .critical, created_at := 0 }

/-- An inactive danger zone. -/
def zoneInactive : DangerZone :=
  { id := "z1", name := "inactive", polygon := "p1", zone_type := "disaster",
    severity := .low, created_at := 0, is_active := false }

/-- An active danger zone. -/
def zoneActive : DangerZone :=
  { id := "z2", name := "active", polygon := "p2", zone_type := "disaster",
    severity := .high, created_at := 0, is_active := true }

/-- The constantly-zero distance function (trivially `HaversineLike` by the
nonnegativity disjunct). -/
def distZero : ℚ → ℚ → ℚ → ℚ → ℚ := fun _ _ _ _ => 0

/-- A parse function under which every polygon string parses to the single
vertex ring [(0, 0)]. -/
def parsePoint : String → Option (List (ℚ × ℚ)) := fun _ => some [(0, 0)]

/-- A parse function under which every polygon string fails to parse. -/
def parseFail : String → Option (List (ℚ × ℚ)) := fun _ => none

/-- Caller input whose `status` field is `verified`, not `open`. -/
def inputVerified : ReportInput :=
  { disaster_type := "flood", description := "d", latitude := 0,
    longitude := 0, status := .verified, severity := .low }

/-- A second caller input, differing from `inputVerified` in description. -/
def inputOther : ReportInput :=
  { inputVerified with description := "e" }

/-- The report produced by `reportDisaster` from `inputVerified` at time 5
for user u1. -/
def repV : DisasterReport :=
  { id := "disaster-5", reporter_id := "u1", disaster_type := "flood",
    description := "d", latitude := 0, longitude := 0,
    status := .verified, severity := .low, created_at := 5 }

/-- The report produced by `reportDisaster` from `inputOther` at time 5. -/
def repW : DisasterReport :=
  { repV with description := "e" }

/-! ### Claims -/

/-- Claim C2, counterexample: on the empty report list the division
`(critical*0.5 + high*0.3)/totalReports` is the JavaScript division
`0/0 = NaN`, so `overallRisk` is `NaN`, not the numeric value 0 the claim
requires of a guarded division. -/
theorem claim_C2_counterexample :
    (analyzeDisasterReports 0 []).overallRisk = JSNum.nan ∧
      (analyzeDisasterReports 0 []).overallRisk ≠ JSNum.num 0 := by
  constructor
  · simp [analyzeDisasterReports, jsDivQ, jsAddQ, jsHalf, jsMin1]
  · simp [analyzeDisasterReports, jsDivQ, jsAddQ, jsHalf, jsMin1]

/-- Claim C2, amended: `summarize` on the empty report list reports
`riskLevel = low` (because every `>` comparison against `NaN` is false),
but its `overallRisk` is `NaN` — the division by `totalReports` is not
guarded. -/
theorem claim_C2_amended :
    ∀ now : Int, generateHazardSummary now [] = (Severity.low, JSNum.nan) := by
  intro now
  simp [generateHazardSummary, analyzeDisasterReports, riskLevelOf,
    jsDivQ, jsAddQ, jsHalf, jsMin1, jsGt]

/-- Claim C4, counterexample: `getDangerZones` returns the stored list
unchanged, so a stored inactive zone appears in its result, contradicting
the claim that only `is_active = true` zones are returned. -/
theorem claim_C4_counterexample :
    getDangerZones [zoneInactive] = [zoneInactive] ∧
      zoneInactive.is_active = false :=
  ⟨rfl, rfl⟩

/-- Claim C4, amended: `getDangerZones` returns the entire stored zone
list as-is; it applies no `is_active` filter at all. -/
theorem claim_C4_amended :
    ∀ zones : List DangerZone, getDangerZones zones = zones :=
  fun _ => rfl

/-- Claim C5, counterexample: for one critical report created within the
last 24 hours the computed risk is exactly 0.3, and the strict `> 0.3`
threshold then yields risk level `low`, not `medium` as the claim states. -/
theorem claim_C5_counterexample :
    generateHazardSummary 0 [repCrit] = (Severity.low, JSNum.num (3/10)) ∧
      Severity.low ≠ Severity.medium := by
  constructor
  · simp [generateHazardSummary, analyzeDisasterReports, riskLevelOf, repCrit,
      repA, jsDivQ, jsAddQ, jsHalf, jsMin1, jsGt, List.filter]
    norm_num
  · decide

/-- Claim C5, amended: for a single report with critical severity created
within the last 24 hours, `overallRisk = (min(1/10,1) + 0.5)/2 = 0.3`
exactly as the claim computes, but the risk level is `low`: the code
buckets with strict `>`, and `0.3 > 0.3` is false. -/
theorem claim_C5_amended :
    ∀ (now : Int) (r : DisasterReport), r.severity = .critical →
      now - 24 * 60 * 60 * 1000 < r.created_at →
      generateHazardSummary now [r] = (Severity.low, JSNum.num (3/10)) := by
  intro now r hsev hrec
  have hrec' : decide (now - 86400000 < r.created_at) = true :=
    decide_eq_true (by omega)
  simp [generateHazardSummary, analyzeDisasterReports, riskLevelOf,
    jsDivQ, jsAddQ, jsHalf, jsMin1, jsGt, List.filter, hsev, hrec']
  norm_num

/-- Witness for the amended claim C5 at the concrete report `repCrit` and
current time 0. -/
theorem claim_C5_amended_witness :
    generateHazardSummary 0 [repCrit] = (Severity.low, JSNum.num (3/10)) :=
  claim_C5_amended 0 repCrit rfl (by norm_num [repCrit, repA])

/-- Claim C3, counterexample: `reportDisaster` generates the id
`"disaster-" + Date.now()`, so two insertions in the same millisecond
return two different reports with the same id; and the returned status is
whatever the caller supplied (here `verified`), not `open`. -/
theorem claim_C3_counterexample :
    reportDisaster (some ⟨"u1"⟩) [] 5 inputVerified = .ok (repV, [repV]) ∧
      reportDisaster (some ⟨"u1"⟩) [repV] 5 inputOther = .ok (repW, [repW, repV]) ∧
      repV ≠ repW ∧ repV.id = repW.id ∧ repV.status ≠ .«open» := by
  refine ⟨rfl, rfl, ?_, rfl, ?_⟩
  · intro h
    exact absurd (congrArg DisasterReport.description h) (by decide)
  · decide

/-- Claim C3, amended: two reports successfully inserted at distinct
nonnegative `Date.now()` timestamps have distinct ids (decimal printing is
injective), and the returned report's status equals the caller-supplied
status — `reportDisaster` does not set it to `open`. -/
theorem claim_C3_amended :
    (∀ (u1 u2 : User) (d1 d2 : List DisasterReport) (now1 now2 : Int)
        (i1 i2 : ReportInput) (r1 r2 : DisasterReport)
        (l1 l2 : List DisasterReport),
        0 ≤ now1 → 0 ≤ now2 → now1 ≠ now2 →
        reportDisaster (some u1) d1 now1 i1 = .ok (r1, l1) →
        reportDisaster (some u2) d2 now2 i2 = .ok (r2, l2) →
        r1.id ≠ r2.id) ∧
      (∀ (u : User) (d : List DisasterReport) (now : Int) (i : ReportInput)
          (r : DisasterReport) (l : List DisasterReport),
        reportDisaster (some u) d now i = .ok (r, l) →
        r.status = i.status) := by
  constructor
  · intro u1 u2 d1 d2 now1 now2 i1 i2 r1 r2 l1 l2 h1 h2 hne hok1 hok2 hid
    simp only [reportDisaster, Except.ok.injEq, Prod.mk.injEq] at hok1 hok2
    have e1 : r1.id = "disaster-" ++ toString now1 := by
      rw [← hok1.1]
    have e2 : r2.id = "disaster-" ++ toString now2 := by
      rw [← hok2.1]
    rw [e1, e2] at hid
    exact hne (toString_int_inj h1 h2 (string_append_left_cancel hid))
  · intro u d now i r l hok
    simp only [reportDisaster, Except.ok.injEq, Prod.mk.injEq] at hok
    rw [← hok.1]

/-- Witness for the amended claim C3: insertions at times 5 and 6 yield
distinct ids, and the status of the report built from `inputVerified` is
`verified`. -/
theorem claim_C3_amended_witness :
    repV.id ≠ ({ repV with id := "disaster-6", created_at := 6 } :
        DisasterReport).id ∧
      repV.status = inputVerified.status :=
  ⟨claim_C3_amended.1 ⟨"u1"⟩ ⟨"u1"⟩ [] [] 5 6 inputVerified inputVerified
      repV { repV with id := "disaster-6", created_at := 6 } [repV]
      [{ repV with id := "disaster-6", created_at := 6 }]
      (by norm_num) (by norm_num) (by norm_num) rfl rfl,
    claim_C3_amended.2 ⟨"u1"⟩ [] 5 inputVerified repV [repV] rfl⟩

/-- Claim C6: `verifyDisasterReport` on an id not present in the stored
list returns undefined (`none`) without throwing and leaves the stored
list unchanged. -/
theorem claim_C6 :
    ∀ (disasters : List DisasterReport) (reportId : String)
      (verified : Bool) (now : Int),
      (∀ r ∈ disasters, r.id ≠ reportId) →
      verifyDisasterReport disasters reportId verified now =
        (none, disasters) := by
  intro d reportId verified now h
  have hfind : d.find? (fun r => r.id = reportId) = none :=
    List.find?_eq_none.mpr (by
      intro x hx
      simpa using h x hx)
  simp [verifyDisasterReport, hfind]

/-- Witness for claim C6 on a concrete store with one report and an
unknown id. -/
theorem claim_C6_witness :
    verifyDisasterReport [repA] "nope" true 0 = (none, [repA]) :=
  claim_C6 [repA] "nope" true 0 (by
    intro r hr
    simp at hr
    subst hr
    decide)

/-- Claim C7: `reportDisaster` throws `Authentication required` when no
session user exists; with a user present it assigns
`id = "disaster-" + now` and `created_at = now`, sets `reporter_id` to the
caller identity, prepends the new report to the stored list (which it
persists in full), and returns the new report. -/
theorem claim_C7 :
    ∀ (session : Option User) (disasters : List DisasterReport) (now : Int)
      (input : ReportInput),
      (session = none →
        reportDisaster session disasters now input =
          .error "Authentication required") ∧
      (∀ u, session = some u →
        ∃ rep, reportDisaster session disasters now input =
            .ok (rep, rep :: disasters) ∧
          rep.id = "disaster-" ++ toString now ∧ rep.created_at = now ∧
          rep.reporter_id = u.id) := by
  intro session d now input
  constructor
  · rintro rfl
    rfl
  · rintro u rfl
    exact ⟨_, rfl, rfl, rfl, rfl⟩

/-- Witness for claim C7: the unauthenticated call fails with the
authentication error, the authenticated call at time 5 prepends and
returns the new report. -/
theorem claim_C7_witness :
    reportDisaster none [] 5 inputVerified = .error "Authentication required" ∧
      ∃ rep, reportDisaster (some ⟨"u1"⟩) [] 5 inputVerified =
          .ok (rep, rep :: ([] : List DisasterReport)) ∧
        rep.id = "disaster-" ++ toString (5 : Int) ∧ rep.created_at = 5 ∧
        rep.reporter_id = (⟨"u1"⟩ : User).id :=
  ⟨(claim_C7 none [] 5 inputVerified).1 rfl,
    (claim_C7 (some ⟨"u1"⟩) [] 5 inputVerified).2 ⟨"u1"⟩ rfl⟩

/-- Claim C8: `getDisasterReports(limit, offset)` returns the contiguous
slice of the stored list starting at `offset` of length at most `limit`
in stored order (element `i` of the result is element `offset + i` of the
store), and an offset at or beyond the end yields `[]` rather than an
error. -/
theorem claim_C8 :
    ∀ (disasters : List DisasterReport) (limit offset : Nat),
      (getDisasterReports disasters limit offset).length ≤ limit ∧
      (∀ i : Nat, i < limit →
        (getDisasterReports disasters limit offset)[i]? =
          disasters[offset + i]?) ∧
      (disasters.length ≤ offset →
        getDisasterReports disasters limit offset = []) := by
  intro d limit offset
  refine ⟨?_, ?_, ?_⟩
  · simp [getDisasterReports]
  · intro i hi
    unfold getDisasterReports
    rw [List.getElem?_take_of_lt hi, List.getElem?_drop]
  · intro h
    unfold getDisasterReports
    rw [List.drop_of_length_le h]
    simp

/-- Witness for claim C8 on the spec scenario `[C, B, A]` (C newest):
`limit = 2, offset = 2` exposes element index 2 (the report A), and
`offset = 10` beyond the end gives `[]`. -/
theorem claim_C8_witness :
    (getDisasterReports [repC, repB, repA] 2 2)[0]? =
        [repC, repB, repA][2 + 0]? ∧
      getDisasterReports [repC, repB, repA] 2 10 = [] :=
  ⟨(claim_C8 [repC, repB, repA] 2 2).2.1 0 (by norm_num),
    (claim_C8 [repC, repB, repA] 2 10).2.2 (by norm_num)⟩

/-- Claim C1, counterexample: with two stored zones — the first inactive,
the second active — whose centroids both coincide with the query point,
`checkLocationInDangerZone` returns the first (inactive) zone and omits
the active matching one: it neither filters on `is_active` nor returns
the matching zones (it returns `zones.slice(0, 1)`). -/
theorem claim_C1_counterexample :
    checkLocationInDangerZone distZero parsePoint [zoneInactive, zoneActive]
        0 0 = [zoneInactive] ∧
      zoneInactive.is_active = false ∧ zoneActive.is_active = true ∧
      zoneActive ∉ checkLocationInDangerZone distZero parsePoint
        [zoneInactive, zoneActive] 0 0 := by
  have hres : checkLocationInDangerZone distZero parsePoint
      [zoneInactive, zoneActive] 0 0 = [zoneInactive] := by
    simp [checkLocationInDangerZone, zoneMatches, getPolygonCenter,
      parsePoint, distZero]
  refine ⟨hres, rfl, rfl, ?_⟩
  rw [hres]
  intro hmem
  simp at hmem
  exact absurd (congrArg DangerZone.id hmem) (by decide)

/-- Claim C1, amended: `checkLocationInDangerZone` ignores `is_active`
entirely and never returns more than the first stored zone: its result is
nonempty exactly when some stored zone (active or not) has its centroid at
strict distance < 5 km from the query point, and any returned zone is the
head of the stored list, whether or not it is the zone that matched. -/
theorem claim_C1_amended :
    ∀ (dist : ℚ → ℚ → ℚ → ℚ → ℚ)
      (parse : String → Option (List (ℚ × ℚ)))
      (zones : List DangerZone) (lat lng : ℚ),
      (checkLocationInDangerZone dist parse zones lat lng ≠ [] ↔
        zones.any (zoneMatches dist parse lat lng) = true) ∧
      ∀ z ∈ checkLocationInDangerZone dist parse zones lat lng,
        zones.head? = some z := by
  intro dist parse zones lat lng
  unfold checkLocationInDangerZone
  by_cases h : zones.any (zoneMatches dist parse lat lng) = true
  · rw [if_pos h]
    obtain ⟨z, hz, _⟩ := List.any_eq_true.mp h
    cases zones with
    | nil => cases hz
    | cons a l =>
        refine ⟨⟨fun _ => h, fun _ => by simp⟩, ?_⟩
        intro w hw
        simp at hw
        simp [hw]
  · rw [if_neg h]
    exact ⟨⟨fun hne => absurd rfl hne, fun ha => absurd ha h⟩, by simp⟩

/-- Witness for the amended claim C1 on the two-zone store: the result is
nonempty (a zone matches) and the returned zone is the head of the store,
the inactive `zoneInactive`. -/
theorem claim_C1_amended_witness :
    checkLocationInDangerZone distZero parsePoint [zoneInactive, zoneActive]
        0 0 ≠ [] ∧
      [zoneInactive, zoneActive].head? = some zoneInactive := by
  have h := claim_C1_amended distZero parsePoint [zoneInactive, zoneActive] 0 0
  have hany : ([zoneInactive, zoneActive].any
      (zoneMatches distZero parsePoint 0 0)) = true := by
    simp [zoneMatches, getPolygonCenter, parsePoint, distZero]
  have hres : checkLocationInDangerZone distZero parsePoint
      [zoneInactive, zoneActive] 0 0 = [zoneInactive] := by
    simp [checkLocationInDangerZone, zoneMatches, getPolygonCenter,
      parsePoint, distZero]
  refine ⟨h.1.mpr hany, h.2 zoneInactive ?_⟩
  rw [hres]
  exact List.mem_cons_self _ _

/-- Claim C9: `getDisasterReportsByLocation` with any `HaversineLike`
distance function keeps exactly the stored reports at distance
`<= radiusKm`, in stored relative order, truncated to the first `limit`
matches: the result is a prefix of the filtered match list whose length is
`min limit (number of matches)` — which uniquely determines it as the
first `limit` matches — it is a sublist of the store, every member is
within the radius, every match is returned when the matches fit in
`limit`, and with `radiusKm = 0` every returned report is at distance
exactly 0 (the haversine distance is nonnegative). -/
theorem claim_C9 :
    ∀ (dist : ℚ → ℚ → ℚ → ℚ → ℚ), HaversineLike dist →
      ∀ (disasters : List DisasterReport) (lat lng radiusKm : ℚ)
        (limit : Nat),
        (getDisasterReportsByLocation dist disasters lat lng radiusKm
            limit) <+: disasters.filter
              (fun s => dist lat lng s.latitude s.longitude ≤ radiusKm) ∧
        (getDisasterReportsByLocation dist disasters lat lng radiusKm
            limit).length = min limit
          (disasters.filter
              (fun s => dist lat lng s.latitude s.longitude ≤ radiusKm)).length ∧
        (getDisasterReportsByLocation dist disasters lat lng radiusKm
            limit).Sublist disasters ∧
        (∀ r ∈ getDisasterReportsByLocation dist disasters lat lng radiusKm
            limit, dist lat lng r.latitude r.longitude ≤ radiusKm) ∧
        (∀ r ∈ disasters, dist lat lng r.latitude r.longitude ≤ radiusKm →
          (disasters.filter
              (fun s => dist lat lng s.latitude s.longitude ≤ radiusKm)).length
              ≤ limit →
          r ∈ getDisasterReportsByLocation dist disasters lat lng radiusKm
            limit) ∧
        (radiusKm = 0 →
          ∀ r ∈ getDisasterReportsByLocation dist disasters lat lng radiusKm
            limit, dist lat lng r.latitude r.longitude = 0) := by
  intro dist hdist d lat lng radiusKm limit
  have hpre : (getDisasterReportsByLocation dist d lat lng radiusKm
      limit) <+: d.filter
        (fun s => dist lat lng s.latitude s.longitude ≤ radiusKm) :=
    List.take_prefix limit _
  have hsub : (getDisasterReportsByLocation dist d lat lng radiusKm
      limit).Sublist d :=
    (List.take_sublist _ _).trans (List.filter_sublist _)
  have hmem : ∀ r ∈ getDisasterReportsByLocation dist d lat lng radiusKm
      limit, dist lat lng r.latitude r.longitude ≤ radiusKm := by
    intro r hr
    have hr' := (List.take_sublist _ _).mem hr
    simpa using (List.mem_filter.mp hr').2
  refine ⟨hpre, ?_, hsub, hmem, ?_, ?_⟩
  · unfold getDisasterReportsByLocation
    exact List.length_take _ _
  · intro r hrd hle hlen
    unfold getDisasterReportsByLocation
    rw [List.take_of_length_le hlen]
    exact List.mem_filter.mpr ⟨hrd, by simpa using hle⟩
  · intro hrad r hr
    have h0 := hmem r hr
    rw [hrad] at h0
    exact le_antisymm h0 (haversineLike_nonneg hdist lat lng r.latitude
      r.longitude)

/-- Witness for claim C9: the constantly-zero distance function is
`HaversineLike` (by the nonnegativity disjunct).  On a one-report store
with radius 0 the report is returned at distance 0, and on a two-report
store with `limit = 1` — an overflow input, both reports match — the
result keeps exactly the first match: it has length 1 = min 1 2 and is a
prefix of the two-element match list, hence is `[repA]`. -/
theorem claim_C9_witness :
    repA ∈ getDisasterReportsByLocation distZero [repA] 0 0 0 50 ∧
      distZero 0 0 repA.latitude repA.longitude = 0 ∧
      (getDisasterReportsByLocation distZero [repA, repB] 0 0 0 1).length
        = 1 ∧
      getDisasterReportsByLocation distZero [repA, repB] 0 0 0 1 =
        [repA] := by
  have hlike : HaversineLike distZero := fun _ _ _ _ => Or.inr le_rfl
  have h := claim_C9 distZero hlike [repA] 0 0 0 50
  have h2 := claim_C9 distZero hlike [repA, repB] 0 0 0 1
  have hmem : repA ∈ getDisasterReportsByLocation distZero [repA] 0 0 0 50 :=
    h.2.2.2.2.1 repA (by simp) (le_of_eq rfl) (by simp [distZero])
  have hfil : ([repA, repB].filter
      (fun s => distZero 0 0 s.latitude s.longitude ≤ 0)) = [repA, repB] := by
    simp [distZero]
  have hlen : (getDisasterReportsByLocation distZero [repA, repB] 0 0 0
      1).length = 1 := by
    rw [h2.2.1, hfil]
    rfl
  have hfirst : getDisasterReportsByLocation distZero [repA, repB] 0 0 0 1 =
      [repA] := by
    have heq := List.prefix_iff_eq_take.mp h2.1
    rw [hlen, hfil] at heq
    rw [heq]
    rfl
  exact ⟨hmem, h.2.2.2.2.2 rfl repA hmem, hlen, hfirst⟩

/-- Claim C10: when a zone's polygon fails to parse, `getPolygonCenter`
silently substitutes the fixed default centre (lat 26.1445, lng 91.7362);
consequently any query point at strict distance < 5 km from that default
satisfies the containment test for every such malformed zone, and the
overall query returns a nonempty result instead of signalling an error. -/
theorem claim_C10 :
    ∀ (parse : String → Option (List (ℚ × ℚ)))
      (dist : ℚ → ℚ → ℚ → ℚ → ℚ) (zones : List DangerZone) (lat lng : ℚ)
      (z : DangerZone),
      parse z.polygon = none →
      getPolygonCenter parse z.polygon = some (26.1445, 91.7362) ∧
      (dist lat lng 26.1445 91.7362 < 5 →
        zoneMatches dist parse lat lng z = true ∧
        (z ∈ zones →
          checkLocationInDangerZone dist parse zones lat lng ≠ [])) := by
  intro parse dist zones lat lng z hp
  have hc : getPolygonCenter parse z.polygon = some (26.1445, 91.7362) := by
    unfold getPolygonCenter
    rw [hp]
  refine ⟨hc, fun hd => ⟨?_, ?_⟩⟩
  · unfold zoneMatches
    rw [hc]
    simpa using hd
  · intro hz
    unfold checkLocationInDangerZone
    rw [if_pos (List.any_eq_true.mpr ⟨z, hz, by
      unfold zoneMatches
      rw [hc]
      simpa using hd⟩)]
    cases zones with
    | nil => cases hz
    | cons a l => simp

/-- Witness for claim C10: under the always-failing parse function the
inactive sample zone is centred at the Guwahati default, and a query at
that exact point (distance 0 under the constantly-zero distance) makes the
store-level query return a nonempty result. -/
theorem claim_C10_witness :
    getPolygonCenter parseFail zoneInactive.polygon =
        some (26.1445, 91.7362) ∧
      zoneMatches distZero parseFail 26.1445 91.7362 zoneInactive = true ∧
      checkLocationInDangerZone distZero parseFail [zoneInactive] 26.1445
        91.7362 ≠ [] := by
  have h := claim_C10 parseFail distZero [zoneInactive] 26.1445 91.7362
    zoneInactive rfl
  have h5 : distZero 26.1445 91.7362 26.1445 91.7362 < 5 := by
    norm_num [distZero]
  exact ⟨h.1, (h.2 h5).1, (h.2 h5).2 (by simp)⟩

end ResQ
